import Mathlib

/-!
Verification development for the backend canister (`backend/src/lib.rs`).

The program is thin glue over two external collaborators: an ECDSA key-derivation
service (`ecdsa_public_key`) and a Bitcoin chain-data provider (`bitcoin_get_utxos`,
`bitcoin_get_current_fee_percentiles`).  We embed the collaborators as pure
request-to-response maps bundled in an `Env`, and each public operation as a pure
function from `Env`, the ambient caller principal and its arguments to a pair of
the operation result and the list of collaborator calls it issued (its call trace).

Rust `Result::expect` panics (canister traps) are embedded as `Except.error`
carrying the panic message: the request fails as a whole, with no partial result.
`u64` addition in the balance loop follows the default release-profile semantics
(wrapping modulo 2^64), and `len() as u32` truncates modulo 2^32.
-/

/-- A Rust `String`, modelled as its character sequence. -/
abbrev Str : Type := List Char

/-- The character sequence of a string literal. -/
def str (s : String) : Str := s.data

/-- Rust `str::trim_start`: drop leading whitespace. -/
def trimStart (s : Str) : Str := s.dropWhile Char.isWhitespace

/-- Rust `str::trim_end`: drop trailing whitespace. -/
def trimEnd (s : Str) : Str := (s.reverse.dropWhile Char.isWhitespace).reverse

/-- Rust `str::trim`: drop leading and trailing whitespace (`addr.trim()` in the source). -/
def trim (s : Str) : Str := trimEnd (trimStart s)

/-- `candid::Principal`: an opaque caller identifier, carried as its byte
representation (`p.as_slice().to_vec()` in the source reads exactly these bytes). -/
structure Principal where
  bytes : List Nat
deriving DecidableEq

/-- `EcdsaCurve` from the management-canister interface; only `Secp256k1` is used. -/
inductive EcdsaCurve
  | secp256k1
deriving DecidableEq

/-- `EcdsaKeyId {curve, name}`. -/
structure EcdsaKeyId where
  curve : EcdsaCurve
  name : Str
deriving DecidableEq

/-- `EcdsaPublicKeyArgument {canister_id, derivation_path, key_id}`. -/
structure EcdsaPublicKeyArgument where
  canister_id : Option Principal
  derivation_path : List (List Nat)
  key_id : EcdsaKeyId
deriving DecidableEq

/-- The reply of `ecdsa_public_key`: `{public_key, chain_code}`. -/
structure EcdsaPublicKeyResponse where
  public_key : List Nat
  chain_code : List Nat
deriving DecidableEq

/-- `BitcoinNetwork` of the management-canister Bitcoin API. -/
inductive IcpBitcoinNetwork
  | mainnet
  | testnet
  | regtest
deriving DecidableEq

/-- A transaction outpoint: transaction id plus output index. -/
structure Outpoint where
  txid : List Nat
  vout : Nat
deriving DecidableEq

/-- `Utxo`: an unspent output with a satoshi `value` (a `u64`) and confirmation height. -/
structure Utxo where
  outpoint : Outpoint
  value : Nat
  height : Nat
deriving DecidableEq

/-- `UtxoFilter` of `GetUtxosRequest`; the source always passes `None`. -/
inductive UtxosFilter
  | minConfirmations : Nat → UtxosFilter
  | page : List Nat → UtxosFilter
deriving DecidableEq

/-- `GetUtxosRequest {network, address, filter}`. -/
structure GetUtxosRequest where
  network : IcpBitcoinNetwork
  address : Str
  filter : Option UtxosFilter
deriving DecidableEq

/-- The reply of `bitcoin_get_utxos`; the source reads only `utxos`. -/
structure GetUtxosResponse where
  utxos : List Utxo
  tip_block_hash : List Nat
  tip_height : Nat
  next_page : Option (List Nat)
deriving DecidableEq

/-- `GetCurrentFeePercentilesRequest {network}`. -/
structure GetCurrentFeePercentilesRequest where
  network : IcpBitcoinNetwork
deriving DecidableEq

/-- `bitcoin::Network`; the configuration uses `Testnet`. -/
inductive Network
  | bitcoin
  | testnet
  | signet
  | regtest
deriving DecidableEq

/-- `AddressInfo`: the value object returned by `get_utxos_and_balance`. -/
structure AddressInfo where
  address : Str
  balance_sats : Nat
  utxo_count : Nat
  utxos : List Utxo
deriving DecidableEq

/-- `get_key_id()`: the fixed key identifier (secp256k1, name "test_key_1"). -/
def get_key_id : EcdsaKeyId :=
  { curve := .secp256k1, name := str "test_key_1" }

/-- `get_network()`: the fixed `bitcoin::Network` configuration value. -/
def get_network : Network := .testnet

/-- `get_icp_network()`: the fixed management-canister network value. -/
def get_icp_network : IcpBitcoinNetwork := .testnet

/-- Modelled from the spec: the external `bitcoin` crate's `PublicKey` (the crate is a
collaborator library, not part of this repository's sources).  A key records whether
its encoding was compressed together with the encoded bytes. -/
structure PublicKey where
  compressed : Bool
  bytes : List Nat
deriving DecidableEq

/-- Modelled from the spec: `PublicKey::from_slice` accepts a well-formed compressed
(33 bytes, tag 2 or 3) or uncompressed (65 bytes, tag 4) secp256k1 encoding and fails
on malformed input (the `InvalidKey` failure of the AddressDeriver contract). -/
def PublicKey.from_slice (data : List Nat) : Option PublicKey :=
  if data.length = 33 ∧ (data.head? = some 2 ∨ data.head? = some 3) then
    some { compressed := true, bytes := data }
  else if data.length = 65 ∧ data.head? = some 4 then
    some { compressed := false, bytes := data }
  else
    none

/-- Modelled from the spec: a `bitcoin::Address`, a value determined by the network
and the witness program derived from the key. -/
structure Address where
  network : Network
  witness_program : List Nat
deriving DecidableEq

/-- Modelled from the spec: `Address::p2wpkh` builds a P2WPKH (segwit v0) address and
fails (`AddressConstructionError`) when the key cannot be encoded into a valid witness
program; a P2WPKH witness program requires a compressed key. -/
def Address.p2wpkh (pk : PublicKey) (n : Network) : Option Address :=
  if pk.compressed then some { network := n, witness_program := pk.bytes } else none

/-- The bech32 human-readable part for each network. -/
def hrpOfNetwork : Network → Str
  | .bitcoin => str "bc"
  | .testnet => str "tb"
  | .signet => str "tb"
  | .regtest => str "bcrt"

/-- Lower-case hex digit for a value below 16. -/
def hexChar (n : Nat) : Char :=
  Char.ofNat (if n < 10 then 48 + n else 87 + n)

/-- Two hex digits for one byte. -/
def byteHex (b : Nat) : Str :=
  [hexChar (b / 16 % 16), hexChar (b % 16)]

/-- Modelled from the spec: rendering an `Address` as a string.  Derivation is a pure
function of (PublicKey, Network); the exact bech32/hash encoding lives in the external
`bitcoin` crate, so any fixed injective rendering represents it faithfully for this
development. -/
def Address.to_string (a : Address) : Str :=
  hrpOfNetwork a.network ++ str "1q" ++ (a.witness_program.map byteHex).flatten

/-- One call issued to an external collaborator, with the request it carried. -/
inductive CallEvent
  | ecdsaPublicKey (arg : EcdsaPublicKeyArgument)
  | bitcoinGetUtxos (req : GetUtxosRequest)
  | bitcoinGetFeePercentiles (req : GetCurrentFeePercentilesRequest)
deriving DecidableEq

/-- The behavior of the two external collaborators during one request: pure
request-to-response maps (the spec treats them as stateless, idempotent query
services).  An error value is its human-readable description. -/
structure Env where
  ecdsa : EcdsaPublicKeyArgument → Except Str EcdsaPublicKeyResponse
  getUtxos : GetUtxosRequest → Except Str GetUtxosResponse
  feePercentiles : GetCurrentFeePercentilesRequest → Except Str (List Nat)

/-- The panic message of `Result::expect(msg)`: the message followed by the error. -/
def expectMsg (msg : Str) (e : Str) : Str := msg ++ str ": " ++ e

/-- The `EcdsaPublicKeyArgument` that `derive_address_for_principal` sends: no
canister id, derivation path `[p.as_slice().to_vec()]`, and the fixed key id. -/
def ecdsaArgFor (p : Principal) : EcdsaPublicKeyArgument :=
  { canister_id := none, derivation_path := [p.bytes], key_id := get_key_id }

/-- `derive_address_for_principal`: fetch the principal's public key from the key
derivation collaborator, parse it, and render its P2WPKH address for the configured
network.  Each `expect` failure aborts the request with the panic message. -/
def derive_address_for_principal (env : Env) (p : Principal) :
    Except Str Str × List CallEvent :=
  let arg := ecdsaArgFor p
  match env.ecdsa arg with
  | .error e => (.error (expectMsg (str "Failed to fetch public key") e), [.ecdsaPublicKey arg])
  | .ok pk_response =>
    match PublicKey.from_slice pk_response.public_key with
    | none => (.error (str "Invalid public key"), [.ecdsaPublicKey arg])
    | some public_key =>
      match Address.p2wpkh public_key get_network with
      | none => (.error (str "Failed to create address"), [.ecdsaPublicKey arg])
      | some a => (.ok a.to_string, [.ecdsaPublicKey arg])

/-- `get_btc_address`: derive the ambient caller's own address. -/
def get_btc_address (env : Env) (caller : Principal) :
    Except Str Str × List CallEvent :=
  derive_address_for_principal env caller

/-- The modulus of `u64` arithmetic. -/
def U64_MOD : Nat := 2 ^ 64

/-- The modulus of `u32` arithmetic. -/
def U32_MOD : Nat := 2 ^ 32

/-- The loop `let mut total_sats = 0; for utxo in &response.utxos { total_sats += utxo.value }`
with `total_sats : u64`: addition wraps modulo 2^64 (default release-profile semantics). -/
def sumValuesWrap (utxos : List Utxo) : Nat :=
  utxos.foldl (fun total_sats u => (total_sats + u.value) % U64_MOD) 0

/-- The mathematical (unbounded) sum of the satoshi values, used to state correctness. -/
def sumValues (utxos : List Utxo) : Nat :=
  (utxos.map Utxo.value).sum

/-- `get_utxos_and_balance`: resolve the address (trimmed target when supplied,
otherwise the caller's derived address), query the chain-data collaborator for its
UTXOs, and aggregate balance and count.  `response.utxos.len() as u32` truncates
modulo 2^32. -/
def get_utxos_and_balance (env : Env) (caller : Principal) (target_address : Option Str) :
    Except Str AddressInfo × List CallEvent :=
  let resolved : Except Str Str × List CallEvent :=
    match target_address with
    | some addr => (.ok (trim addr), [])
    | none => derive_address_for_principal env caller
  match resolved with
  | (.error e, tr) => (.error e, tr)
  | (.ok address_to_check, tr) =>
    let req : GetUtxosRequest :=
      { network := get_icp_network, address := address_to_check, filter := none }
    match env.getUtxos req with
    | .error e =>
      (.error (expectMsg (str "Failed to fetch UTXOs.") e), tr ++ [.bitcoinGetUtxos req])
    | .ok response =>
      (.ok { address := address_to_check,
             balance_sats := sumValuesWrap response.utxos,
             utxo_count := response.utxos.length % U32_MOD,
             utxos := response.utxos },
       tr ++ [.bitcoinGetUtxos req])

/-- `get_utxo_count_only`: same address resolution and chain-data query as
`get_utxos_and_balance`, returning just `response.utxos.len() as u32`. -/
def get_utxo_count_only (env : Env) (caller : Principal) (target_address : Option Str) :
    Except Str Nat × List CallEvent :=
  let resolved : Except Str Str × List CallEvent :=
    match target_address with
    | some addr => (.ok (trim addr), [])
    | none => derive_address_for_principal env caller
  match resolved with
  | (.error e, tr) => (.error e, tr)
  | (.ok address_to_check, tr) =>
    let req : GetUtxosRequest :=
      { network := get_icp_network, address := address_to_check, filter := none }
    match env.getUtxos req with
    | .error e =>
      (.error (expectMsg (str "Failed to fetch UTXOs.") e), tr ++ [.bitcoinGetUtxos req])
    | .ok response =>
      (.ok (response.utxos.length % U32_MOD), tr ++ [.bitcoinGetUtxos req])

/-- `debug_network_status`: probe the chain-data collaborator's fee-percentile
endpoint; report an online string on success and an offline string carrying the
error's description on failure.  The return type is a plain string: this operation
never fails, whatever the collaborator does. -/
def debug_network_status (env : Env) : Str × List CallEvent :=
  let req : GetCurrentFeePercentilesRequest := { network := get_icp_network }
  let fees_result := env.feePercentiles req
  (match fees_result with
   | .ok _ => str "ICP Connection: ONLINE."
   | .error e => str "ICP Connection: OFFLINE. Error: " ++ e,
   [.bitcoinGetFeePercentiles req])

/-- The collaborator call recorded by an event failed under `env`. -/
def CallEvent.failed (env : Env) : CallEvent → Prop
  | .ecdsaPublicKey arg => ∃ e, env.ecdsa arg = .error e
  | .bitcoinGetUtxos req => ∃ e, env.getUtxos req = .error e
  | .bitcoinGetFeePercentiles req => ∃ e, env.feePercentiles req = .error e

/-! Helper lemmas about trimming. -/

theorem dropWhile_append_formula {α : Type} (p : α → Bool) (l1 l2 : List α) :
    (l1 ++ l2).dropWhile p =
      if (l1.dropWhile p).isEmpty then l2.dropWhile p else l1.dropWhile p ++ l2 := by
  induction l1 with
  | nil => simp
  | cons a l ih =>
    by_cases h : p a = true
    · simpa [List.dropWhile_cons, h] using ih
    · simp [List.dropWhile_cons, h]

theorem dropWhile_append_of_forall {α : Type} {p : α → Bool} {ws s : List α}
    (h : ∀ c ∈ ws, p c) : (ws ++ s).dropWhile p = s.dropWhile p := by
  rw [dropWhile_append_formula, List.dropWhile_eq_nil_iff.mpr h]
  simp

theorem trimStart_ws_append {ws s : Str} (h : ∀ c ∈ ws, c.isWhitespace) :
    trimStart (ws ++ s) = trimStart s :=
  dropWhile_append_of_forall h

theorem trimEnd_append_ws {ws s : Str} (h : ∀ c ∈ ws, c.isWhitespace) :
    trimEnd (s ++ ws) = trimEnd s := by
  unfold trimEnd
  rw [List.reverse_append, dropWhile_append_of_forall (fun c hc => h c (List.mem_reverse.mp hc))]

theorem trim_eq_nil_of_forall_ws {s : Str} (h : ∀ c ∈ s, c.isWhitespace) : trim s = [] := by
  unfold trim trimStart trimEnd
  rw [List.dropWhile_eq_nil_iff.mpr h]
  rfl

theorem trim_pad {ws1 ws2 s : Str} (h1 : ∀ c ∈ ws1, c.isWhitespace)
    (h2 : ∀ c ∈ ws2, c.isWhitespace) :
    trim (ws1 ++ s ++ ws2) = trim s := by
  unfold trim
  rw [List.append_assoc, trimStart_ws_append h1]
  by_cases hs : s.dropWhile Char.isWhitespace = []
  · unfold trimStart
    rw [dropWhile_append_formula, hs]
    simp only [List.isEmpty_nil, if_true]
    rw [List.dropWhile_eq_nil_iff.mpr h2]
  · unfold trimStart
    rw [dropWhile_append_formula]
    simp only [List.isEmpty_eq_true, hs, if_false]
    exact trimEnd_append_ws h2

/-! Helper lemmas about aggregation. -/

theorem foldlWrap_eq_of_lt (l : List Utxo) :
    ∀ acc : Nat, acc + sumValues l < U64_MOD →
      l.foldl (fun total_sats u => (total_sats + u.value) % U64_MOD) acc = acc + sumValues l := by
  induction l with
  | nil => intro acc _; simp [sumValues]
  | cons u l ih =>
    intro acc hacc
    have hsum : sumValues (u :: l) = u.value + sumValues l := by
      simp [sumValues]
    have hstep : (acc + u.value) % U64_MOD = acc + u.value := by
      apply Nat.mod_eq_of_lt
      have : acc + u.value ≤ acc + sumValues (u :: l) := by
        rw [hsum]; omega
      omega
    simp only [List.foldl_cons, hstep]
    have : acc + u.value + sumValues l < U64_MOD := by
      rw [hsum] at hacc; omega
    rw [ih (acc + u.value) this, hsum]
    omega

theorem sumValuesWrap_eq_of_lt {l : List Utxo} (h : sumValues l < U64_MOD) :
    sumValuesWrap l = sumValues l := by
  unfold sumValuesWrap
  simpa using foldlWrap_eq_of_lt l 0 (by omega)

/-- Characterization of a successful `get_utxos_and_balance` call: the returned
record is built from the chain-data collaborator's response at the returned address. -/
theorem balance_ok_characterization (env : Env) (c : Principal) (t : Option Str)
    (info : AddressInfo) (h : (get_utxos_and_balance env c t).1 = .ok info) :
    ∃ resp, env.getUtxos { network := get_icp_network, address := info.address, filter := none } = .ok resp ∧
      info.utxos = resp.utxos ∧
      info.balance_sats = sumValuesWrap resp.utxos ∧
      info.utxo_count = resp.utxos.length % U32_MOD := by
  unfold get_utxos_and_balance at h
  rcases t with _ | addr
  · rcases hd : derive_address_for_principal env c with ⟨r, tr⟩
    rcases r with e | a
    · simp [hd] at h
    · simp only [hd] at h
      rcases hg : env.getUtxos { network := get_icp_network, address := a, filter := none } with e | resp
      · simp [hg] at h
      · simp only [hg] at h
        injection h with h2
        subst h2
        exact ⟨resp, hg, rfl, rfl, rfl⟩
  · rcases hg : env.getUtxos { network := get_icp_network, address := trim addr, filter := none } with e | resp
    · simp [hg] at h
    · simp only [hg] at h
      injection h with h2
      subst h2
      exact ⟨resp, hg, rfl, rfl, rfl⟩

/-! Concrete fixtures used by witnesses and counterexamples. -/

/-- A concrete caller principal. -/
def pW : Principal := { bytes := [1, 2, 3] }

/-- Sample UTXOs with the values of the spec's worked example [5000, 12345, 300]. -/
def utxoA : Utxo := { outpoint := { txid := [1], vout := 0 }, value := 5000, height := 10 }

/-- Second sample UTXO. -/
def utxoB : Utxo := { outpoint := { txid := [2], vout := 1 }, value := 12345, height := 11 }

/-- Third sample UTXO. -/
def utxoC : Utxo := { outpoint := { txid := [3], vout := 0 }, value := 300, height := 12 }

/-- A well-formed compressed public-key encoding: 33 bytes with tag 2. -/
def pkBytesW : List Nat := 2 :: List.replicate 32 7

/-- A fully successful collaborator behavior. -/
def envW : Env :=
  { ecdsa := fun _ => .ok { public_key := pkBytesW, chain_code := [] },
    getUtxos := fun _ => .ok
      { utxos := [utxoA, utxoB, utxoC], tip_block_hash := [], tip_height := 100,
        next_page := none },
    feePercentiles := fun _ => .ok [100, 200] }

/-- The `AddressInfo` that `get_utxos_and_balance envW pW (some "a")` produces. -/
def infoW : AddressInfo :=
  { address := str "a", balance_sats := 17645, utxo_count := 3, utxos := [utxoA, utxoB, utxoC] }

/-- A UTXO whose value is 2^63: two of them overflow a `u64` sum. -/
def utxoBig : Utxo := { outpoint := { txid := [9], vout := 0 }, value := 2 ^ 63, height := 1 }

/-- A small UTXO making the wrapped sum visibly distinct from zero. -/
def utxoSmall : Utxo := { outpoint := { txid := [4], vout := 2 }, value := 5, height := 3 }

/-- Chain data whose UTXO values sum to exactly 2^64. -/
def envOvA : Env :=
  { ecdsa := fun _ => .error (str "unavailable"),
    getUtxos := fun _ => .ok
      { utxos := [utxoBig, utxoBig], tip_block_hash := [], tip_height := 0, next_page := none },
    feePercentiles := fun _ => .error (str "unavailable") }

/-- Chain data whose UTXO values sum to 2^64 + 5. -/
def envOvB : Env :=
  { ecdsa := fun _ => .error (str "unavailable"),
    getUtxos := fun _ => .ok
      { utxos := [utxoBig, utxoBig, utxoSmall], tip_block_hash := [], tip_height := 0,
        next_page := none },
    feePercentiles := fun _ => .error (str "unavailable") }

/-- A zero-valued UTXO, replicated to build oversized responses. -/
def utxoZero : Utxo := { outpoint := { txid := [], vout := 0 }, value := 0, height := 0 }

/-- A chain-data response holding exactly 2^32 UTXO entries. -/
def respHuge : GetUtxosResponse :=
  { utxos := List.replicate U32_MOD utxoZero, tip_block_hash := [], tip_height := 0,
    next_page := none }

/-- Chain data returning exactly 2^32 UTXO entries. -/
def envHuge : Env :=
  { ecdsa := fun _ => .error (str "unavailable"),
    getUtxos := fun _ => .ok respHuge,
    feePercentiles := fun _ => .error (str "unavailable") }

/-! Claim C1. -/

/-- C1 (amended): whenever `get_utxos_and_balance` succeeds, its `utxos` field is
exactly the sequence the chain-data collaborator returned for the queried address,
and — provided the mathematical sum of the values fits in a `u64` and the length fits
in a `u32` (the claim's original unconditional form fails on overflowing inputs, see
the counterexample) — `balance_sats` is exactly `v1+...+vn` and `utxo_count` exactly
`n`; in particular an empty sequence yields balance 0 and count 0. -/
theorem C1_aggregation_correct (env : Env) (c : Principal) (t : Option Str)
    (info : AddressInfo) (h : (get_utxos_and_balance env c t).1 = .ok info)
    (hsum : sumValues info.utxos < U64_MOD) (hlen : info.utxos.length < U32_MOD) :
    info.balance_sats = sumValues info.utxos ∧
    info.utxo_count = info.utxos.length ∧
    (∃ resp,
      env.getUtxos { network := get_icp_network, address := info.address, filter := none } =
        .ok resp ∧ info.utxos = resp.utxos) ∧
    (info.utxos = [] → info.balance_sats = 0 ∧ info.utxo_count = 0) := by
  obtain ⟨resp, hresp, hutxos, hbal, hcount⟩ := balance_ok_characterization env c t info h
  rw [← hutxos] at hbal hcount
  refine ⟨?_, ?_, ⟨resp, hresp, hutxos⟩, ?_⟩
  · rw [hbal, sumValuesWrap_eq_of_lt hsum]
  · rw [hcount, Nat.mod_eq_of_lt hlen]
  · intro hnil
    rw [hbal, hcount, hnil]
    constructor
    · rfl
    · rfl

/-- Witness for C1: the spec's worked example [5000, 12345, 300] gives balance 17645,
count 3 and the returned sequence itself. -/
theorem C1_aggregation_correct_witness :
    ((get_utxos_and_balance envW pW (some (str "a"))).1 = .ok infoW ∧
      sumValues infoW.utxos < U64_MOD ∧ infoW.utxos.length < U32_MOD) ∧
    (infoW.balance_sats = sumValues infoW.utxos ∧
      infoW.utxo_count = infoW.utxos.length ∧
      (∃ resp,
        envW.getUtxos { network := get_icp_network, address := infoW.address, filter := none } =
          .ok resp ∧ infoW.utxos = resp.utxos) ∧
      (infoW.utxos = [] → infoW.balance_sats = 0 ∧ infoW.utxo_count = 0)) :=
  ⟨⟨rfl, by decide, by decide⟩,
    C1_aggregation_correct envW pW (some (str "a")) infoW rfl (by decide) (by decide)⟩

/-- Counterexample to C1 as stated: for the returned sequence [2^63, 2^63] the call
succeeds but `balance_sats` is 0, not the sum `v1 + v2 = 2^64` — the unchecked `u64`
addition wrapped. -/
theorem C1_aggregation_counterexample :
    ∃ info, (get_utxos_and_balance envOvA pW (some (str "a"))).1 = .ok info ∧
      info.balance_sats ≠ sumValues info.utxos :=
  ⟨{ address := str "a", balance_sats := 0, utxo_count := 2, utxos := [utxoBig, utxoBig] },
    rfl, by decide⟩

/-! Claim C2. -/

/-- C2 is refuted by the code (code bug): for a UTXO set whose values sum to
2^64 + 5 — beyond the maximum representable `u64` — `get_utxos_and_balance` does not
fail with any `AmountOverflow` error; it succeeds and returns the wrapped
(mod 2^64) total 5.  No overflow check exists in the source (`total_sats += utxo.value`),
although the spec mandates failing with `AmountOverflow` rather than wrapping. -/
theorem C2_overflow_wraps_not_error :
    sumValues [utxoBig, utxoBig, utxoSmall] = U64_MOD + 5 ∧
    (get_utxos_and_balance envOvB pW (some (str "x"))).1 =
      .ok { address := str "x", balance_sats := 5, utxo_count := 3,
            utxos := [utxoBig, utxoBig, utxoSmall] } :=
  ⟨by decide, rfl⟩

/-! Claim C3. -/

/-- Forward evaluation of `get_utxo_count_only` on a supplied target address when
the chain-data collaborator answers successfully. -/
theorem count_ok_of_resp (env : Env) (c : Principal) (addr : Str) (resp : GetUtxosResponse)
    (hresp : env.getUtxos { network := get_icp_network, address := trim addr, filter := none } =
      .ok resp) :
    (get_utxo_count_only env c (some addr)).1 = .ok (resp.utxos.length % U32_MOD) := by
  unfold get_utxo_count_only
  simp [hresp]

/-- Forward evaluation of `get_utxos_and_balance` on a supplied target address when
the chain-data collaborator answers successfully. -/
theorem balance_ok_of_resp (env : Env) (c : Principal) (addr : Str) (resp : GetUtxosResponse)
    (hresp : env.getUtxos { network := get_icp_network, address := trim addr, filter := none } =
      .ok resp) :
    (get_utxos_and_balance env c (some addr)).1 =
      .ok { address := trim addr, balance_sats := sumValuesWrap resp.utxos,
            utxo_count := resp.utxos.length % U32_MOD, utxos := resp.utxos } := by
  unfold get_utxos_and_balance
  simp [hresp]

/-- A chain-data response of length 2^32 makes `get_utxo_count_only` return 0:
the truncating cast, stated symbolically. -/
theorem count_zero_of_len (env : Env) (c : Principal) (addr : Str) (resp : GetUtxosResponse)
    (hresp : env.getUtxos { network := get_icp_network, address := trim addr, filter := none } =
      .ok resp)
    (hlen : resp.utxos.length = U32_MOD) :
    (get_utxo_count_only env c (some addr)).1 = .ok 0 := by
  rw [count_ok_of_resp env c addr resp hresp, hlen, Nat.mod_self]

/-- A chain-data response of length 2^32 makes `get_utxos_and_balance` succeed with
`utxo_count = 0`, stated symbolically. -/
theorem balance_count_zero_of_len (env : Env) (c : Principal) (addr : Str)
    (resp : GetUtxosResponse)
    (hresp : env.getUtxos { network := get_icp_network, address := trim addr, filter := none } =
      .ok resp)
    (hlen : resp.utxos.length = U32_MOD) :
    ∃ info, (get_utxos_and_balance env c (some addr)).1 = .ok info ∧
      info.utxos.length = U32_MOD ∧ info.utxo_count = 0 := by
  refine ⟨_, balance_ok_of_resp env c addr resp hresp, hlen, ?_⟩
  show resp.utxos.length % U32_MOD = 0
  rw [hlen, Nat.mod_self]

/-- C3 is refuted by the code (code bug): for a response with exactly 2^32 UTXO
entries, neither `get_utxos_and_balance` nor `get_utxo_count_only` fails with any
`CountOverflow` error; `response.utxos.len() as u32` silently truncates, so both
report a count of 0 for 2^32 entries, although the spec mandates failing with
`CountOverflow` rather than truncating. -/
theorem C3_count_truncated_silently :
    (get_utxo_count_only envHuge pW (some (str "x"))).1 = .ok 0 ∧
    ∃ info, (get_utxos_and_balance envHuge pW (some (str "x"))).1 = .ok info ∧
      info.utxos.length = U32_MOD ∧ info.utxo_count = 0 := by
  have hlen : respHuge.utxos.length = U32_MOD := by
    show (List.replicate U32_MOD utxoZero).length = U32_MOD
    exact List.length_replicate _ _
  exact ⟨count_zero_of_len envHuge pW (str "x") respHuge rfl hlen,
    balance_count_zero_of_len envHuge pW (str "x") respHuge rfl hlen⟩

/-! Trace helper lemmas. -/

/-- With a supplied target, the balance call issues exactly one chain-data query, at
the trimmed target address. -/
theorem balance_trace_some (env : Env) (c : Principal) (addr : Str) :
    (get_utxos_and_balance env c (some addr)).2 =
      [CallEvent.bitcoinGetUtxos
        { network := get_icp_network, address := trim addr, filter := none }] := by
  unfold get_utxos_and_balance
  rcases hg : env.getUtxos { network := get_icp_network, address := trim addr, filter := none }
    with e | resp <;> simp [hg]

/-- With a supplied target, the count call issues exactly one chain-data query, at
the trimmed target address. -/
theorem count_trace_some (env : Env) (c : Principal) (addr : Str) :
    (get_utxo_count_only env c (some addr)).2 =
      [CallEvent.bitcoinGetUtxos
        { network := get_icp_network, address := trim addr, filter := none }] := by
  unfold get_utxo_count_only
  rcases hg : env.getUtxos { network := get_icp_network, address := trim addr, filter := none }
    with e | resp <;> simp [hg]

/-- With a supplied target, a successful balance call reports the trimmed target as
its address. -/
theorem balance_ok_address_some (env : Env) (c : Principal) (addr : Str)
    (info : AddressInfo) (h : (get_utxos_and_balance env c (some addr)).1 = .ok info) :
    info.address = trim addr := by
  unfold get_utxos_and_balance at h
  rcases hg : env.getUtxos { network := get_icp_network, address := trim addr, filter := none }
    with e | resp
  · simp [hg] at h
  · simp only [hg] at h
    injection h with h2
    subst h2
    rfl

/-- The derivation helper issues exactly one key-derivation call, whatever happens. -/
theorem derive_trace (env : Env) (p : Principal) :
    (derive_address_for_principal env p).2 = [CallEvent.ecdsaPublicKey (ecdsaArgFor p)] := by
  unfold derive_address_for_principal
  rcases he : env.ecdsa (ecdsaArgFor p) with e | reply
  · simp [he]
  · rcases hk : PublicKey.from_slice reply.public_key with _ | pk
    · simp [he, hk]
    · rcases ha : Address.p2wpkh pk get_network with _ | a <;> simp [he, hk, ha]

/-! Claim C4. -/

/-- C4: when a target address is supplied, `get_utxos_and_balance` and
`get_utxo_count_only` use the supplied string verbatim after trimming surrounding
whitespace as the address that is queried (the single chain-data request carries the
trimmed string) and returned (a successful balance call reports it), and neither
invokes the key-derivation collaborator for that request. -/
theorem C4_target_used_verbatim (env : Env) (c : Principal) (addr : Str) :
    (get_utxos_and_balance env c (some addr)).2 =
      [CallEvent.bitcoinGetUtxos
        { network := get_icp_network, address := trim addr, filter := none }] ∧
    (get_utxo_count_only env c (some addr)).2 =
      [CallEvent.bitcoinGetUtxos
        { network := get_icp_network, address := trim addr, filter := none }] ∧
    (∀ info, (get_utxos_and_balance env c (some addr)).1 = .ok info →
      info.address = trim addr) ∧
    (∀ a, CallEvent.ecdsaPublicKey a ∉ (get_utxos_and_balance env c (some addr)).2) ∧
    (∀ a, CallEvent.ecdsaPublicKey a ∉ (get_utxo_count_only env c (some addr)).2) := by
  refine ⟨balance_trace_some env c addr, count_trace_some env c addr,
    fun info h => balance_ok_address_some env c addr info h, ?_, ?_⟩
  · intro a
    rw [balance_trace_some env c addr]
    simp
  · intro a
    rw [count_trace_some env c addr]
    simp

/-- Witness for C4 at a concrete environment and target. -/
theorem C4_target_used_verbatim_witness :
    (get_utxos_and_balance envW pW (some (str "  tb1q  "))).2 =
      [CallEvent.bitcoinGetUtxos
        { network := get_icp_network, address := trim (str "  tb1q  "), filter := none }] ∧
    (get_utxo_count_only envW pW (some (str "  tb1q  "))).2 =
      [CallEvent.bitcoinGetUtxos
        { network := get_icp_network, address := trim (str "  tb1q  "), filter := none }] ∧
    (∀ info, (get_utxos_and_balance envW pW (some (str "  tb1q  "))).1 = .ok info →
      info.address = trim (str "  tb1q  ")) ∧
    (∀ a, CallEvent.ecdsaPublicKey a ∉ (get_utxos_and_balance envW pW (some (str "  tb1q  "))).2) ∧
    (∀ a, CallEvent.ecdsaPublicKey a ∉ (get_utxo_count_only envW pW (some (str "  tb1q  "))).2) :=
  C4_target_used_verbatim envW pW (str "  tb1q  ")

/-! Claim C5. -/

/-- The count call is the balance call with `utxo_count` projected out, sharing the
identical call trace. -/
theorem count_eq_balance_map (env : Env) (c : Principal) (t : Option Str) :
    get_utxo_count_only env c t =
      ((get_utxos_and_balance env c t).1.map (fun info => info.utxo_count),
        (get_utxos_and_balance env c t).2) := by
  unfold get_utxo_count_only get_utxos_and_balance
  rcases t with _ | addr
  · rcases hd : derive_address_for_principal env c with ⟨r, tr⟩
    rcases r with e | a
    · simp [hd, Except.map]
    · rcases hg : env.getUtxos { network := get_icp_network, address := a, filter := none }
        with e | resp <;> simp [hd, hg, Except.map]
  · rcases hg : env.getUtxos { network := get_icp_network, address := trim addr, filter := none }
      with e | resp <;> simp [hg, Except.map]

/-- C5: for identical inputs (same caller, same optional target, same collaborator
behavior), `get_utxo_count_only` returns exactly the `utxo_count` that
`get_utxos_and_balance` would produce: its whole result is the image of the balance
call's result under projecting out `utxo_count`, with an identical call trace (and in
particular identical failures). -/
theorem C5_count_matches_balance (env : Env) (c : Principal) (t : Option Str) :
    get_utxo_count_only env c t =
      ((get_utxos_and_balance env c t).1.map (fun info => info.utxo_count),
        (get_utxos_and_balance env c t).2) :=
  count_eq_balance_map env c t

/-! Claim C6. -/

/-- A collaborator behavior in which every external call fails. -/
def envErr : Env :=
  { ecdsa := fun _ => .error (str "no route"),
    getUtxos := fun _ => .error (str "no route"),
    feePercentiles := fun _ => .error (str "IC timeout") }

/-- C6: `debug_network_status` returns the online status string whenever the
fee-percentile call succeeds, returns an offline status string containing the
description of the underlying error whenever that call fails, and in both cases
returns normally: its result type is a plain string with no error case, so no failure
is ever propagated to its own caller. -/
theorem C6_connectivity_report (env : Env) :
    (∀ fees, env.feePercentiles { network := get_icp_network } = .ok fees →
      (debug_network_status env).1 = str "ICP Connection: ONLINE.") ∧
    (∀ e, env.feePercentiles { network := get_icp_network } = .error e →
      (debug_network_status env).1 = str "ICP Connection: OFFLINE. Error: " ++ e ∧
      ∃ l r, (debug_network_status env).1 = l ++ e ++ r) ∧
    (debug_network_status env).2 =
      [CallEvent.bitcoinGetFeePercentiles { network := get_icp_network }] := by
  refine ⟨?_, ?_, rfl⟩
  · intro fees hf
    unfold debug_network_status
    simp [hf]
  · intro e hf
    have hrep : (debug_network_status env).1 = str "ICP Connection: OFFLINE. Error: " ++ e := by
      unfold debug_network_status
      simp [hf]
    exact ⟨hrep, str "ICP Connection: OFFLINE. Error: ", [], by rw [hrep, List.append_nil]⟩

/-- Witness for C6: a concrete failing collaborator yields the offline string with
the error text, a concrete succeeding one yields the online string. -/
theorem C6_connectivity_report_witness :
    (debug_network_status envErr).1 =
      str "ICP Connection: OFFLINE. Error: " ++ str "IC timeout" ∧
    (debug_network_status envW).1 = str "ICP Connection: ONLINE." :=
  ⟨((C6_connectivity_report envErr).2.1 (str "IC timeout") rfl).1,
    (C6_connectivity_report envW).1 [100, 200] rfl⟩

/-! Claim C8. -/

/-- C8: calling `get_utxos_and_balance` with a target address surrounded by extra
leading and trailing whitespace produces the same result (value and trace) as calling
it with the trimmed string, given the same collaborator behavior. -/
theorem C8_whitespace_insensitive (env : Env) (c : Principal) (s ws1 ws2 : Str)
    (h1 : ∀ ch ∈ ws1, ch.isWhitespace) (h2 : ∀ ch ∈ ws2, ch.isWhitespace)
    (hs : trim s = s) :
    get_utxos_and_balance env c (some (ws1 ++ s ++ ws2)) =
      get_utxos_and_balance env c (some s) := by
  unfold get_utxos_and_balance
  dsimp only
  rw [trim_pad h1 h2, hs]

/-- Witness for C8: the spec's example, "  tb1qexample  " versus "tb1qexample". -/
theorem C8_whitespace_insensitive_witness :
    ((∀ ch ∈ str "  ", ch.isWhitespace) ∧ trim (str "tb1qexample") = str "tb1qexample") ∧
    get_utxos_and_balance envW pW (some (str "  tb1qexample  ")) =
      get_utxos_and_balance envW pW (some (str "tb1qexample")) := by
  refine ⟨⟨by decide, by decide⟩, ?_⟩
  have h := C8_whitespace_insensitive envW pW (str "tb1qexample") (str "  ") (str "  ")
    (by decide) (by decide) (by decide)
  have e : str "  " ++ str "tb1qexample" ++ str "  " = str "  tb1qexample  " := by decide
  rw [e] at h
  exact h

/-! Claim C10. -/

/-- C10: when the supplied target is empty or consists only of whitespace, both
`get_utxos_and_balance` and `get_utxo_count_only` still skip key derivation entirely
and issue the chain-data query with the empty string as the address: non-emptiness of
a supplied target is never checked. -/
theorem C10_blank_target_queries_empty (env : Env) (c : Principal) (ws : Str)
    (h : ∀ ch ∈ ws, ch.isWhitespace) :
    (get_utxos_and_balance env c (some ws)).2 =
      [CallEvent.bitcoinGetUtxos
        { network := get_icp_network, address := str "", filter := none }] ∧
    (get_utxo_count_only env c (some ws)).2 =
      [CallEvent.bitcoinGetUtxos
        { network := get_icp_network, address := str "", filter := none }] ∧
    (∀ a, CallEvent.ecdsaPublicKey a ∉ (get_utxos_and_balance env c (some ws)).2) ∧
    (∀ a, CallEvent.ecdsaPublicKey a ∉ (get_utxo_count_only env c (some ws)).2) := by
  have ht : trim ws = str "" := trim_eq_nil_of_forall_ws h
  have hb := balance_trace_some env c ws
  have hc := count_trace_some env c ws
  rw [ht] at hb hc
  refine ⟨hb, hc, ?_, ?_⟩
  · intro a
    rw [hb]
    simp
  · intro a
    rw [hc]
    simp

/-- Witness for C10: the target "   " (three blanks). -/
theorem C10_blank_target_queries_empty_witness :
    (∀ ch ∈ str "   ", ch.isWhitespace) ∧
    ((get_utxos_and_balance envW pW (some (str "   "))).2 =
      [CallEvent.bitcoinGetUtxos
        { network := get_icp_network, address := str "", filter := none }] ∧
    (get_utxo_count_only envW pW (some (str "   "))).2 =
      [CallEvent.bitcoinGetUtxos
        { network := get_icp_network, address := str "", filter := none }] ∧
    (∀ a, CallEvent.ecdsaPublicKey a ∉ (get_utxos_and_balance envW pW (some (str "   "))).2) ∧
    (∀ a, CallEvent.ecdsaPublicKey a ∉ (get_utxo_count_only envW pW (some (str "   "))).2)) :=
  ⟨by decide, C10_blank_target_queries_empty envW pW (str "   ") (by decide)⟩

/-! Claim C7. -/

/-- If the key-derivation collaborator fails, the derivation helper fails. -/
theorem derive_error_of_ecdsa_error (env : Env) (p : Principal) (e : Str)
    (he : env.ecdsa (ecdsaArgFor p) = .error e) :
    (derive_address_for_principal env p).1 =
      .error (expectMsg (str "Failed to fetch public key") e) := by
  unfold derive_address_for_principal
  simp [he]

/-- If the derivation helper succeeded, the key-derivation collaborator did not fail. -/
theorem derive_ok_ecdsa_not_error (env : Env) (p : Principal) (a : Str)
    (h : (derive_address_for_principal env p).1 = .ok a) :
    ∀ e, env.ecdsa (ecdsaArgFor p) ≠ .error e := by
  intro e he
  unfold derive_address_for_principal at h
  simp [he] at h

/-- The balance call's trace never repeats a collaborator call: no local retry. -/
theorem balance_trace_nodup (env : Env) (c : Principal) (t : Option Str) :
    (get_utxos_and_balance env c t).2.Nodup := by
  rcases t with _ | addr
  · unfold get_utxos_and_balance
    rcases hd : derive_address_for_principal env c with ⟨r, tr⟩
    have htr : tr = [CallEvent.ecdsaPublicKey (ecdsaArgFor c)] := by
      have h0 := derive_trace env c
      rw [hd] at h0
      exact h0
    subst htr
    rcases r with e | a
    · simp [hd]
    · rcases hg : env.getUtxos { network := get_icp_network, address := a, filter := none }
        with e | resp <;> simp [hd, hg]
  · rw [balance_trace_some]
    simp

/-- Any failing collaborator call recorded in the balance call's trace forces the
balance call to fail. -/
theorem balance_failed_error (env : Env) (c : Principal) (t : Option Str) :
    ∀ ev ∈ (get_utxos_and_balance env c t).2, ev.failed env →
      ∃ e, (get_utxos_and_balance env c t).1 = .error e := by
  rcases t with _ | addr
  · intro ev hev hfail
    unfold get_utxos_and_balance at hev ⊢
    rcases hd : derive_address_for_principal env c with ⟨r, tr⟩
    have htr : tr = [CallEvent.ecdsaPublicKey (ecdsaArgFor c)] := by
      have h0 := derive_trace env c
      rw [hd] at h0
      exact h0
    subst htr
    rcases r with e | a
    · exact ⟨e, by simp [hd]⟩
    · have hda : (derive_address_for_principal env c).1 = .ok a := by rw [hd]
      rcases hg : env.getUtxos { network := get_icp_network, address := a, filter := none }
        with e | resp
      · exact ⟨expectMsg (str "Failed to fetch UTXOs.") e, by simp [hd, hg]⟩
      · exfalso
        simp [hd, hg] at hev
        rcases hev with rfl | rfl
        · obtain ⟨e2, he2⟩ := hfail
          exact derive_ok_ecdsa_not_error env c a hda e2 he2
        · obtain ⟨e2, he2⟩ := hfail
          rw [hg] at he2
          exact Except.noConfusion he2
  · intro ev hev hfail
    rw [balance_trace_some] at hev
    simp at hev
    subst hev
    obtain ⟨e, he⟩ := hfail
    exact ⟨expectMsg (str "Failed to fetch UTXOs.") e, by
      unfold get_utxos_and_balance
      simp [he]⟩

/-- C7: for every operation other than the connectivity check, every failure of a
collaborator call (key derivation, public-key parsing, address construction, UTXO
query) surfaces as a typed failure of the whole operation: no operation retries a
collaborator call (each trace is duplicate-free), any failing call recorded in an
operation's trace forces an error result (so no partial result can coexist with a
collaborator failure), and the parse/construction failures inside derivation produce
their own typed errors. -/
theorem C7_failures_propagate (env : Env) (c : Principal) (t : Option Str) :
    ((get_utxos_and_balance env c t).2.Nodup ∧
      (get_utxo_count_only env c t).2.Nodup ∧
      (get_btc_address env c).2.Nodup) ∧
    (∀ ev ∈ (get_utxos_and_balance env c t).2, ev.failed env →
      ∃ e, (get_utxos_and_balance env c t).1 = .error e) ∧
    (∀ ev ∈ (get_utxo_count_only env c t).2, ev.failed env →
      ∃ e, (get_utxo_count_only env c t).1 = .error e) ∧
    (∀ ev ∈ (get_btc_address env c).2, ev.failed env →
      ∃ e, (get_btc_address env c).1 = .error e) ∧
    (∀ reply, env.ecdsa (ecdsaArgFor c) = .ok reply →
      PublicKey.from_slice reply.public_key = none →
      (derive_address_for_principal env c).1 = .error (str "Invalid public key")) ∧
    (∀ reply pk, env.ecdsa (ecdsaArgFor c) = .ok reply →
      PublicKey.from_slice reply.public_key = some pk →
      Address.p2wpkh pk get_network = none →
      (derive_address_for_principal env c).1 = .error (str "Failed to create address")) := by
  have hmap := count_eq_balance_map env c t
  have h2 : (get_utxo_count_only env c t).2 = (get_utxos_and_balance env c t).2 := by
    rw [hmap]
  have h1 : (get_utxo_count_only env c t).1 =
      (get_utxos_and_balance env c t).1.map (fun info => info.utxo_count) := by
    rw [hmap]
  refine ⟨⟨balance_trace_nodup env c t, ?_, ?_⟩, balance_failed_error env c t, ?_, ?_, ?_, ?_⟩
  · rw [h2]
    exact balance_trace_nodup env c t
  · unfold get_btc_address
    rw [derive_trace env c]
    simp
  · intro ev hev hfail
    rw [h2] at hev
    obtain ⟨e, he⟩ := balance_failed_error env c t ev hev hfail
    refine ⟨e, ?_⟩
    rw [h1, he]
    rfl
  · intro ev hev hfail
    unfold get_btc_address at hev ⊢
    rw [derive_trace env c] at hev
    simp at hev
    subst hev
    obtain ⟨e, he⟩ := hfail
    exact ⟨expectMsg (str "Failed to fetch public key") e,
      derive_error_of_ecdsa_error env c e he⟩
  · intro reply hr hk
    unfold derive_address_for_principal
    simp [hr, hk]
  · intro reply pk hr hk ha
    unfold derive_address_for_principal
    simp [hr, hk, ha]

/-- Witness for C7 at a concrete environment in which every collaborator call fails. -/
theorem C7_failures_propagate_witness :
    ((get_utxos_and_balance envErr pW (some (str "addr"))).2.Nodup ∧
      (get_utxo_count_only envErr pW (some (str "addr"))).2.Nodup ∧
      (get_btc_address envErr pW).2.Nodup) ∧
    (∀ ev ∈ (get_utxos_and_balance envErr pW (some (str "addr"))).2, ev.failed envErr →
      ∃ e, (get_utxos_and_balance envErr pW (some (str "addr"))).1 = .error e) ∧
    (∀ ev ∈ (get_utxo_count_only envErr pW (some (str "addr"))).2, ev.failed envErr →
      ∃ e, (get_utxo_count_only envErr pW (some (str "addr"))).1 = .error e) ∧
    (∀ ev ∈ (get_btc_address envErr pW).2, ev.failed envErr →
      ∃ e, (get_btc_address envErr pW).1 = .error e) ∧
    (∀ reply, envErr.ecdsa (ecdsaArgFor pW) = .ok reply →
      PublicKey.from_slice reply.public_key = none →
      (derive_address_for_principal envErr pW).1 = .error (str "Invalid public key")) ∧
    (∀ reply pk, envErr.ecdsa (ecdsaArgFor pW) = .ok reply →
      PublicKey.from_slice reply.public_key = some pk →
      Address.p2wpkh pk get_network = none →
      (derive_address_for_principal envErr pW).1 = .error (str "Failed to create address")) :=
  C7_failures_propagate envErr pW (some (str "addr"))

/-! Claim C9. -/

/-- Same key-derivation collaborator but a chain-data collaborator that is down. -/
def envW2 : Env :=
  { ecdsa := fun _ => .ok { public_key := pkBytesW, chain_code := [] },
    getUtxos := fun _ => .error (str "down"),
    feePercentiles := fun _ => .error (str "down") }

/-- C9: address derivation is deterministic.  The result of
`derive_address_for_principal` (and hence of `get_btc_address`, which is exactly the
derivation applied to the ambient caller) depends only on the principal and on the
key-derivation collaborator's response to the single request it makes — the fixed
key id (secp256k1, "test_key_1") and the derivation path built from the principal —
so two runs with the same principal and the same collaborator response yield the
identical address string. -/
theorem C9_derivation_deterministic (env1 env2 : Env) (p : Principal)
    (h : env1.ecdsa (ecdsaArgFor p) = env2.ecdsa (ecdsaArgFor p)) :
    derive_address_for_principal env1 p = derive_address_for_principal env2 p ∧
    get_btc_address env1 p = derive_address_for_principal env1 p ∧
    get_btc_address env2 p = derive_address_for_principal env2 p := by
  refine ⟨?_, rfl, rfl⟩
  unfold derive_address_for_principal
  dsimp only
  rw [h]

/-- Witness for C9: two different environments agreeing on the key-derivation
response give the identical derivation result. -/
theorem C9_derivation_deterministic_witness :
    envW.ecdsa (ecdsaArgFor pW) = envW2.ecdsa (ecdsaArgFor pW) ∧
    (derive_address_for_principal envW pW = derive_address_for_principal envW2 pW ∧
      get_btc_address envW pW = derive_address_for_principal envW pW ∧
      get_btc_address envW2 pW = derive_address_for_principal envW2 pW) :=
  ⟨rfl, C9_derivation_deterministic envW envW2 pW rfl⟩
